import Mathlib

/-!
Verification of the JWT token service in
`src/fastapi_in_production/JWT authentication/jwt-auth.py`.

The Python source issues signed bearer tokens (`create_access_token`),
verifies them (`get_current_user`), and exposes a login endpoint
(`login`).  We embed the module shallowly: dictionaries become
association lists with Python `dict` semantics, the wall clock becomes
an explicit `now : Int` parameter (seconds since the epoch, the unit in
which JWT `exp` claims are serialized), and the third-party `jose`
library's `jwt.encode` / `jwt.decode` are modelled from the spec's
description of the token service (§4.1, §6): a token is the signed
triple of an algorithm header, a claims payload and a signature, where
the signature is an idealized MAC, injective in the secret.
-/

namespace JwtAuth

/-- A JSON value as it can appear as a claim value in this program:
`null`, a string, or an integer (the `exp` timestamp). -/
inductive JValue where
  | vnull
  | vstr (s : String)
  | vint (n : Int)
deriving DecidableEq, Repr

/-- A Python `dict` of claims: an association list in insertion order,
with unique keys maintained by `Claims.insert`. -/
abbrev Claims := List (String × JValue)

/-- `d.get(key)` as `Option`: the value at the first matching key. -/
def Claims.get : Claims → String → Option JValue
  | [], _ => none
  | (k, v) :: rest, key => if k = key then some v else Claims.get rest key

/-- Python `d.get(key, default)`. -/
def Claims.getD (d : Claims) (key : String) (dflt : JValue) : JValue :=
  (Claims.get d key).getD dflt

/-- Python `d.update(\x7bkey: val\x7d)` on a single key, as a value:
replaces the value in place if the key exists (keeping its position),
otherwise appends the new binding. -/
def Claims.insert : Claims → String → JValue → Claims
  | [], key, val => [(key, val)]
  | (k, v) :: rest, key, val =>
      if k = key then (key, val) :: rest else (k, v) :: Claims.insert rest key val

/-- `SECRET_KEY` from the source. -/
def SECRET_KEY : String := "lkdsfkldsfsj"

/-- `ALGORITHM` from the source. -/
def ALGORITHM : String := "HS256"

/-- `ACCESS_TOKEN_EXPIRE_MINUTE` from the source. -/
def ACCESS_TOKEN_EXPIRE_MINUTE : Int := 30

/-- A deterministic serialization of a claim value, used as the byte
content the MAC is computed over. -/
def serializeJValue : JValue → String
  | .vnull => "null"
  | .vstr s => "str:" ++ s
  | .vint n => "int:" ++ toString n

/-- A deterministic serialization of a claims payload. -/
def serializeClaims : Claims → String
  | [] => ""
  | (k, v) :: rest => k ++ "=" ++ serializeJValue v ++ ";" ++ serializeClaims rest

/-- Modelled from the spec: HMAC-SHA256 over the serialized payload
with the shared secret (§6, algorithm `HS256`).  The real HMAC is not
in the repository; we idealize it as a MAC whose output determines the
secret for a fixed payload, so that verification under a different
secret fails (§8). -/
def hmacSign (secret : String) (payload : Claims) : List Char :=
  (secret ++ "|" ++ serializeClaims payload).data

/-- Modelled from the spec: the three-segment signed token wire format
(§6) — header carrying the algorithm tag, claims payload, signature
segment (a byte string, here a list of characters). -/
structure Token where
  header : String
  payload : Claims
  signature : List Char
deriving DecidableEq, Repr

/-- The error kinds the `jose` library can raise from `jwt.decode`; all
are subclasses of `JWTError`, which the source catches as one. -/
inductive JWTError where
  | unsupportedAlgorithm
  | invalidSignature
  | expiredSignature
  | invalidClaims
deriving DecidableEq, Repr

namespace jwt

/-- Modelled from the spec: `jose` `jwt.encode(claims, secret,
algorithm)` — serializes the claims and signs them with the secret,
embedding the algorithm tag in the header (§4.1, §6). -/
def encode (claims : Claims) (secret : String) (algorithm : String) : Token :=
  ⟨algorithm, claims, hmacSign secret claims⟩

/-- Modelled from the spec: `jose` `jwt.decode(token, secret,
algorithms)` — "decode and check signature validity and expiry using
the configured secret/algorithm" (§4.1).  Failure kinds: unsupported
algorithm, signature mismatch, `exp` in the past (a token whose `exp`
claim is not an integer is a claims error); an absent `exp` is not
checked.  A token is expired exactly when `exp` is strictly before the
current time. -/
def decode (token : Token) (secret : String) (algorithms : String) (now : Int) :
    Except JWTError Claims :=
  if token.header ≠ algorithms then .error .unsupportedAlgorithm
  else if token.signature ≠ hmacSign secret token.payload then .error .invalidSignature
  else
    match Claims.get token.payload "exp" with
    | none => .ok token.payload
    | some (.vint e) => if e < now then .error .expiredSignature else .ok token.payload
    | some _ => .error .invalidClaims

end jwt

/-- `create_access_token(data)` from the source, with the wall clock
`datetime.now(timezone.utc)` passed explicitly as `now` (seconds):
copies the input, merges `exp = now + 30 minutes` into the copy, and
signs with the configured secret and algorithm. -/
def create_access_token (now : Int) (data : Claims) : Token :=
  let to_encode := data
  let expire := now + ACCESS_TOKEN_EXPIRE_MINUTE * 60
  let to_encode := Claims.insert to_encode "exp" (.vint expire)
  jwt.encode to_encode SECRET_KEY ALGORITHM

/-- `fastapi.HTTPException` as raised by the source. -/
structure HTTPException where
  status_code : Nat
  detail : String
  headers : List (String × String)
deriving DecidableEq, Repr

/-- The `credentials_exception` constructed in `get_current_user`. -/
def credentials_exception : HTTPException :=
  ⟨401, "Could not validate credentials", [("WWW-Authenticate", "Bearer")]⟩

/-- `get_current_user(token)` from the source: decodes the token with
the configured secret and algorithm, catches any `JWTError` as the
single 401 `credentials_exception`, reads `username =
payload.get("sub", "")`, raises `credentials_exception` when `username
is None` (only possible when `sub` is present with value `null`), and
otherwise returns `username`. -/
def get_current_user (token : Token) (now : Int) : Except HTTPException JValue :=
  match jwt.decode token SECRET_KEY ALGORITHM now with
  | .error _ => .error credentials_exception
  | .ok payload =>
      let username := Claims.getD payload "sub" (.vstr "")
      if username = .vnull then .error credentials_exception
      else .ok username

/-- The user object returned by the credential store; the source reads
`user.name`. -/
structure User where
  name : String
deriving DecidableEq, Repr

/-- `fastapi.security.OAuth2PasswordRequestForm`: the form-encoded
username/password of `POST /token`. -/
structure OAuth2PasswordRequestForm where
  username : String
  password : String
deriving DecidableEq, Repr

/-- The JSON object returned by `login` on success. -/
structure TokenResponse where
  access_token : Token
  token_type : String
deriving DecidableEq, Repr

/-- `login(form_data)` from the source (`POST /token`).  Modelled from
the spec: `authenticate_user` is called by the source but not defined
anywhere in the repository ("implement your own logic"); the spec's
Credential Store "verifies username/password" (§2), so it is taken as
a parameter returning the authenticated user or nothing.  On rejection
the source raises HTTP 400; on success it issues a token for
`\x7b"sub": user.name\x7d` and returns it with `token_type` `"bearer"`. -/
def login (authenticate_user : String → String → Option User) (now : Int)
    (form_data : OAuth2PasswordRequestForm) : Except HTTPException TokenResponse :=
  match authenticate_user form_data.username form_data.password with
  | none => .error ⟨400, "Incorrect username or password", []⟩
  | some user => .ok ⟨create_access_token now [("sub", .vstr user.name)], "bearer"⟩

/-! ## Heap model of dictionary mutation

Python dictionaries are heap objects passed by reference.  To state the
frame property of `create_access_token` — the caller's dictionary is
not mutated, because the function updates a copy — we model the heap as
a list of dictionary objects addressed by allocation index. -/

/-- The heap of live dictionary objects; a reference is an index. -/
abbrev Heap := List Claims

/-- Read a dictionary object through its reference. -/
def Heap.read (h : Heap) (r : Nat) : Claims := h.getD r []

/-- Allocate a fresh dictionary object, returning its reference. -/
def Heap.alloc (h : Heap) (v : Claims) : Heap × Nat := (h ++ [v], h.length)

/-- Mutate the dictionary object behind a reference. -/
def Heap.write (h : Heap) (r : Nat) (v : Claims) : Heap := h.set r v

/-- `create_access_token(data)` at the level of heap references:
`data` is a reference to the caller's dictionary.  `data.copy()`
allocates a fresh object holding the same bindings;
`to_encode.update(\x7b"exp": expire\x7d)` mutates that fresh object.
Returns the heap after the call together with the issued token. -/
def create_access_token_heap (h : Heap) (now : Int) (data : Nat) : Heap × Token :=
  let alloc := Heap.alloc h (Heap.read h data)
  let h := alloc.1
  let to_encode := alloc.2
  let expire := now + ACCESS_TOKEN_EXPIRE_MINUTE * 60
  let h := Heap.write h to_encode (Claims.insert (Heap.read h to_encode) "exp" (.vint expire))
  (h, jwt.encode (Heap.read h to_encode) SECRET_KEY ALGORITHM)

/-! ## Supporting lemmas -/

/-- Looking up the inserted key finds the inserted value. -/
theorem Claims.get_insert_self (d : Claims) (k : String) (v : JValue) :
    Claims.get (Claims.insert d k v) k = some v := by
  induction d with
  | nil => simp [Claims.insert, Claims.get]
  | cons hd tl ih =>
      obtain ⟨k1, v1⟩ := hd
      by_cases hk : k1 = k
      · simp [Claims.insert, hk, Claims.get]
      · simp [Claims.insert, hk, Claims.get, ih]

/-- Looking up any other key is unaffected by an insertion. -/
theorem Claims.get_insert_ne (d : Claims) (k k2 : String) (v : JValue)
    (hne : k2 ≠ k) : Claims.get (Claims.insert d k v) k2 = Claims.get d k2 := by
  induction d with
  | nil => simp [Claims.insert, Claims.get, Ne.symm hne]
  | cons hd tl ih =>
      obtain ⟨k1, v1⟩ := hd
      by_cases hk : k1 = k
      · subst hk
        simp [Claims.insert, Claims.get, Ne.symm hne]
      · simp [Claims.insert, hk, Claims.get, ih]

/-- The issued token, explicitly. -/
theorem create_access_token_eq (now : Int) (data : Claims) :
    create_access_token now data =
      ⟨ALGORITHM, Claims.insert data "exp" (.vint (now + 30 * 60)),
        hmacSign SECRET_KEY (Claims.insert data "exp" (.vint (now + 30 * 60)))⟩ := by
  rfl

/-- The MAC determines the secret for a fixed payload. -/
theorem hmacSign_secret_inj (s1 s2 : String) (payload : Claims)
    (h : hmacSign s1 payload = hmacSign s2 payload) : s1 = s2 := by
  unfold hmacSign at h
  have h2 : s1.data ++ ("|" ++ serializeClaims payload).data
      = s2.data ++ ("|" ++ serializeClaims payload).data := by
    simpa [String.data_append] using h
  have h3 : s1.data = s2.data := List.append_cancel_right h2
  exact String.ext h3

/-- Overwriting a byte with a different byte changes the byte string. -/
theorem set_byte_ne (l : List Char) (i : Nat) (b : Char) (hi : i < l.length)
    (hb : b ≠ l.get ⟨i, hi⟩) : l.set i b ≠ l := by
  intro heq
  apply hb
  have h2 : (l.set i b)[i]? = l[i]? := by rw [heq]
  rw [List.getElem?_set_self hi, List.getElem?_eq_getElem hi] at h2
  simpa [List.get_eq_getElem] using Option.some.inj h2

/-! ## The claims -/

/-- Claim C1: for every claims set C and ttl > 0, verifying the token
issued from C immediately after issuance succeeds and returns C's
fields plus a well-formed `exp` claim; on success, verification
returns the embedded claims set.  (The source's issuance has its ttl
fixed at 30 minutes; the conclusion holds for every claims set.) -/
theorem round_trip (ttl : Int) (_httl : 0 < ttl) (C : Claims) (now : Int) :
    jwt.decode (create_access_token now C) SECRET_KEY ALGORITHM now
      = .ok (Claims.insert C "exp" (.vint (now + 30 * 60)))
    ∧ Claims.get (Claims.insert C "exp" (.vint (now + 30 * 60))) "exp"
      = some (.vint (now + 30 * 60))
    ∧ ∀ k, k ≠ "exp" →
        Claims.get (Claims.insert C "exp" (.vint (now + 30 * 60))) k = Claims.get C k := by
  refine ⟨?_, Claims.get_insert_self C _ _, fun k hk => Claims.get_insert_ne C _ _ _ hk⟩
  rw [create_access_token_eq]
  simp [jwt.decode, Claims.get_insert_self, show ¬(now + 30 * 60 < now) by omega]

/-- Witness for C1 at ttl = 1, C = sub:"alice", now = 0. -/
theorem round_trip_witness :
    jwt.decode (create_access_token 0 [("sub", .vstr "alice")]) SECRET_KEY ALGORITHM 0
      = .ok (Claims.insert [("sub", .vstr "alice")] "exp" (.vint (0 + 30 * 60))) :=
  (round_trip 1 (by decide) [("sub", .vstr "alice")] 0).1

/-- Claim C2: every verification failure of `get_current_user` is the
single `credentials_exception` — HTTP 401 carrying the header
`WWW-Authenticate: Bearer` — whatever the underlying cause (wrong
algorithm header, bad signature, expiry, bad claims, null subject). -/
theorem invalid_credentials_uniform (token : Token) (now : Int) (e : HTTPException)
    (h : get_current_user token now = .error e) :
    e = credentials_exception ∧ e.status_code = 401 ∧
      ("WWW-Authenticate", "Bearer") ∈ e.headers := by
  have he : e = credentials_exception := by
    unfold get_current_user at h
    cases hd : jwt.decode token SECRET_KEY ALGORITHM now with
    | error err => rw [hd] at h; exact (Except.error.inj h).symm
    | ok payload =>
        rw [hd] at h
        by_cases hs : Claims.getD payload "sub" (.vstr "") = .vnull
        · simp only [hs, if_pos rfl] at h
          exact (Except.error.inj h).symm
        · simp only [if_neg hs] at h
          exact absurd h (by simp)
  subst he
  exact ⟨rfl, rfl, by simp [credentials_exception]⟩

/-- Witness for C2 at a token with an empty (hence wrong) signature. -/
theorem invalid_credentials_uniform_witness :
    credentials_exception = credentials_exception ∧
      credentials_exception.status_code = 401 ∧
      ("WWW-Authenticate", "Bearer") ∈ credentials_exception.headers :=
  invalid_credentials_uniform ⟨"HS256", [], []⟩ 0 credentials_exception (by rfl)

/-- Counterexample to C3 as stated: issuance takes no caller-supplied
ttl; issuing at time 0 and asking for the exp that a ttl of 60
seconds would give (60) fails — the token's exp is 1800, the fixed
30-minute lifetime. -/
theorem exp_not_caller_ttl :
    Claims.get (create_access_token 0 []).payload "exp" ≠ some (.vint (0 + 60)) := by
  decide

/-- Claim C3 as amended: the issuance operation takes only the claims
mapping; it computes exp = now(UTC) plus the fixed 30-minute
`ACCESS_TOKEN_EXPIRE_MINUTE` lifetime, merges it into the claims, and
serializes and signs with the configured secret and algorithm; for
every claims input the issued token's exp equals issuance time plus
1800 seconds. -/
theorem issue_fixed_expiry (now : Int) (data : Claims) :
    create_access_token now data
      = jwt.encode (Claims.insert data "exp" (.vint (now + 30 * 60))) SECRET_KEY ALGORITHM
    ∧ Claims.get (create_access_token now data).payload "exp"
      = some (.vint (now + 30 * 60)) := by
  refine ⟨rfl, ?_⟩
  rw [create_access_token_eq]
  exact Claims.get_insert_self _ _ _

/-- Claim C4: for every issued token, once the time at verification is
past the token's exp (issuance time + 1800 s), verification fails with
the 401 `credentials_exception`; it never succeeds after expiry. -/
theorem verify_fails_after_expiry (t0 now : Int) (C : Claims)
    (h : t0 + 30 * 60 < now) :
    get_current_user (create_access_token t0 C) now = .error credentials_exception := by
  unfold get_current_user
  have hd : jwt.decode (create_access_token t0 C) SECRET_KEY ALGORITHM now
      = .error .expiredSignature := by
    rw [create_access_token_eq]
    simp [jwt.decode, Claims.get_insert_self]
    omega
  rw [hd]

/-- Witness for C4: a token issued at time 0 fails at time 1801. -/
theorem verify_fails_after_expiry_witness :
    get_current_user (create_access_token 0 []) 1801 = .error credentials_exception :=
  verify_fails_after_expiry 0 1801 [] (by decide)

/-- Claim C5: every issued token contains an `exp` claim, and that exp
is strictly later than the clock at issuance, for every input claims
mapping. -/
theorem exp_present_and_future (now : Int) (data : Claims) :
    Claims.get (create_access_token now data).payload "exp"
      = some (.vint (now + 30 * 60))
    ∧ now < now + 30 * 60 := by
  constructor
  · rw [create_access_token_eq]
    exact Claims.get_insert_self _ _ _
  · omega

/-- Claim C6: changing any byte of an issued token's signature segment
makes verification fail with the 401 `credentials_exception`, and
decoding the token under any secret other than the one it was signed
with fails with a signature error. -/
theorem signature_validation (t0 now : Int) (C : Claims) :
    (∀ i : Nat, ∀ b : Char, ∀ hi : i < (create_access_token t0 C).signature.length,
       b ≠ (create_access_token t0 C).signature.get ⟨i, hi⟩ →
       get_current_user
         ⟨(create_access_token t0 C).header, (create_access_token t0 C).payload,
           (create_access_token t0 C).signature.set i b⟩ now
         = .error credentials_exception)
    ∧ ∀ secret, secret ≠ SECRET_KEY →
        jwt.decode (create_access_token t0 C) secret ALGORITHM now
          = .error .invalidSignature := by
  constructor
  · intro i b hi hb
    have hneq := set_byte_ne _ i b hi hb
    unfold get_current_user
    have hd : jwt.decode
        ⟨(create_access_token t0 C).header, (create_access_token t0 C).payload,
          (create_access_token t0 C).signature.set i b⟩ SECRET_KEY ALGORITHM now
        = .error .invalidSignature := by
      rw [create_access_token_eq] at hneq ⊢
      simp [jwt.decode]
      intro hcontra
      exact absurd hcontra (by simpa using hneq)
    rw [hd]
  · intro secret hs
    have hmac : hmacSign SECRET_KEY (Claims.insert C "exp" (.vint (t0 + 30 * 60)))
        ≠ hmacSign secret (Claims.insert C "exp" (.vint (t0 + 30 * 60))) := by
      intro heq
      exact hs (hmacSign_secret_inj SECRET_KEY secret _ heq).symm
    rw [create_access_token_eq]
    simp [jwt.decode]
    intro hcontra
    exact absurd hcontra (by simpa using hmac)

/-- Witness for C6: flip the first signature byte of a concrete issued
token, and decode the same token under the secret "other". -/
theorem signature_validation_witness :
    get_current_user
      ⟨(create_access_token 0 []).header, (create_access_token 0 []).payload,
        (create_access_token 0 []).signature.set 0 (Char.ofNat 120)⟩ 0
      = .error credentials_exception
    ∧ jwt.decode (create_access_token 0 []) "other" ALGORITHM 0
      = .error .invalidSignature :=
  ⟨(signature_validation 0 0 []).1 0 (Char.ofNat 120) (by decide) (by decide),
   (signature_validation 0 0 []).2 "other" (by decide)⟩

/-- Claim C7: `POST /token` returns the object with the issued access
token and token_type "bearer" when the credential store accepts the
submitted username/password, and fails with HTTP 400 (returning no
token) when it rejects them. -/
theorem login_behavior (authenticate_user : String → String → Option User) (now : Int)
    (form_data : OAuth2PasswordRequestForm) :
    (authenticate_user form_data.username form_data.password = none →
       login authenticate_user now form_data
         = .error ⟨400, "Incorrect username or password", []⟩)
    ∧ ∀ u, authenticate_user form_data.username form_data.password = some u →
        login authenticate_user now form_data
          = .ok ⟨create_access_token now [("sub", .vstr u.name)], "bearer"⟩ := by
  constructor
  · intro h
    unfold login
    rw [h]
  · intro u h
    unfold login
    rw [h]

/-- Witness for C7: a rejecting store yields 400; an accepting store
yields the bearer token for the authenticated user's name. -/
theorem login_behavior_witness :
    login (fun _ _ => none) 0 ⟨"alice", "pw"⟩
      = .error ⟨400, "Incorrect username or password", []⟩
    ∧ login (fun _ _ => some ⟨"alice"⟩) 0 ⟨"alice", "pw"⟩
      = .ok ⟨create_access_token 0 [("sub", .vstr "alice")], "bearer"⟩ :=
  ⟨(login_behavior (fun _ _ => none) 0 ⟨"alice", "pw"⟩).1 rfl,
   (login_behavior (fun _ _ => some ⟨"alice"⟩) 0 ⟨"alice", "pw"⟩).2 ⟨"alice"⟩ rfl⟩

/-- Setting the slot one past the end of `h` in `h ++ [w]` replaces
`w`. -/
theorem set_concat (h : Heap) (w w2 : Claims) :
    (h ++ [w]).set h.length w2 = h ++ [w2] := by
  induction h with
  | nil => rfl
  | cons a t ih => simp [List.set, ih]

/-- Reading below the allocation point is unaffected by an
allocation. -/
theorem Heap.read_append_lt (h : Heap) (w : Claims) (r : Nat) (hr : r < h.length) :
    Heap.read (h ++ [w]) r = Heap.read h r := by
  simp [Heap.read, List.getD_eq_getElem?_getD, List.getElem?_append_left hr]

/-- Reading the freshly allocated slot returns the stored value. -/
theorem Heap.read_append_self (h : Heap) (w : Claims) :
    Heap.read (h ++ [w]) h.length = w := by
  simp [Heap.read, List.getD_eq_getElem?_getD, List.getElem?_concat_length]

/-- Claim C8: issuance does not mutate its input dictionary: after
`create_access_token` returns, the caller's dictionary is exactly what
it was before the call (in particular no `exp` key was added to it),
because the function updates a copy; and the token it returns is the
one issued from the caller's claims. -/
theorem issue_no_mutation (h : Heap) (now : Int) (r : Nat) (hr : r < h.length) :
    Heap.read (create_access_token_heap h now r).1 r = Heap.read h r
    ∧ (create_access_token_heap h now r).2 = create_access_token now (Heap.read h r) := by
  have hheap : (create_access_token_heap h now r).1
      = h ++ [Claims.insert (Heap.read h r) "exp"
          (.vint (now + ACCESS_TOKEN_EXPIRE_MINUTE * 60))] := by
    simp [create_access_token_heap, Heap.alloc, Heap.write, Heap.read_append_self, set_concat]
  constructor
  · rw [hheap, Heap.read_append_lt h _ r hr]
  · simp [create_access_token_heap, Heap.alloc, Heap.write, Heap.read_append_self,
      set_concat, create_access_token, jwt.encode]

/-- Witness for C8 on a one-dictionary heap. -/
theorem issue_no_mutation_witness :
    Heap.read (create_access_token_heap [[("sub", .vstr "a")]] 0 0).1 0
      = Heap.read [[("sub", .vstr "a")]] 0
    ∧ (create_access_token_heap [[("sub", .vstr "a")]] 0 0).2
      = create_access_token 0 (Heap.read [[("sub", .vstr "a")]] 0) :=
  issue_no_mutation [[("sub", .vstr "a")]] 0 0 (by decide)

/-- Claim C9: when the input claims mapping already contains an `exp`
key, issuance still succeeds and the issued token's exp is
unconditionally issuance time plus the fixed 30-minute lifetime,
overwriting the caller's value. -/
theorem exp_overwritten (now : Int) (C : Claims) (v : JValue)
    (_h : Claims.get C "exp" = some v) :
    Claims.get (create_access_token now C).payload "exp"
      = some (.vint (now + 30 * 60))
    ∧ (v ≠ .vint (now + 30 * 60) →
        Claims.get (create_access_token now C).payload "exp" ≠ some v) := by
  have hget : Claims.get (create_access_token now C).payload "exp"
      = some (.vint (now + 30 * 60)) := by
    rw [create_access_token_eq]
    exact Claims.get_insert_self _ _ _
  refine ⟨hget, fun hv hcontra => hv ?_⟩
  rw [hget] at hcontra
  exact (Option.some.inj hcontra).symm

/-- Witness for C9 with a pre-existing null `exp`. -/
theorem exp_overwritten_witness :
    Claims.get (create_access_token 0 [("exp", .vnull)]).payload "exp"
      = some (.vint (0 + 30 * 60)) :=
  (exp_overwritten 0 [("exp", .vnull)] .vnull rfl).1

/-- Claim C10: for a token that decodes successfully (valid signature,
unexpired), `get_current_user` returns the value of the `sub` claim;
when `sub` is absent it returns the empty string; it raises the 401
`credentials_exception` only when `sub` is present with value null. -/
theorem sub_claim_behavior (token : Token) (now : Int) (p : Claims)
    (h : jwt.decode token SECRET_KEY ALGORITHM now = .ok p) :
    (∀ v, Claims.get p "sub" = some v → v ≠ .vnull →
       get_current_user token now = .ok v)
    ∧ (Claims.get p "sub" = none → get_current_user token now = .ok (.vstr ""))
    ∧ (Claims.get p "sub" = some .vnull →
        get_current_user token now = .error credentials_exception) := by
  unfold get_current_user
  rw [h]
  refine ⟨?_, ?_, ?_⟩
  · intro v hv hvn
    simp [Claims.getD, hv, hvn]
  · intro hv
    simp [Claims.getD, hv]
  · intro hv
    simp [Claims.getD, hv]

/-- Witness for C10: a validly signed token with sub = "alice". -/
theorem sub_claim_behavior_witness :
    get_current_user (jwt.encode [("sub", .vstr "alice")] SECRET_KEY ALGORITHM) 0
      = .ok (.vstr "alice") :=
  (sub_claim_behavior (jwt.encode [("sub", .vstr "alice")] SECRET_KEY ALGORITHM) 0
    [("sub", .vstr "alice")] (by rfl)).1 (.vstr "alice") rfl (by decide)

end JwtAuth
